import Mathlib

/-!
Verification of the aioftp FTP server core (src/aioftp/server.py): a shallow
embedding of the permission model, path resolver, reply formatter, session
state and command handlers, together with theorems settling the spec claims.

Paths are modelled after `pathlib.PurePosixPath`: an absolute flag plus the
list of non-anchor components; joins and `relative_to` are lexical, as in the
source.  The external path-I/O capability is modelled as an oracle of pure
functions supplied to each handler.  Python coroutines returning a reply
tuple, returning `None` (falling off the end of the function body), or raising
an exception are distinguished by the `HandlerResult` type.
-/

namespace Aioftp

/-- Embeds `pathlib.PurePosixPath`: an anchor flag and the component list
(`parts` without the leading `/`). -/
structure PurePath where
  absolute : Bool
  parts : List String
deriving DecidableEq, Repr

/-- The virtual root `Path("/")`. -/
def PurePath.root : PurePath := ⟨true, []⟩

/-- Embeds `pathlib` path join `a / b`: an absolute right-hand side replaces the
left-hand side, otherwise the components are concatenated. -/
def PurePath.join (a b : PurePath) : PurePath :=
  if b.absolute then b else ⟨a.absolute, a.parts ++ b.parts⟩

/-- Embeds `p.relative_to(base)`: succeeds (lexically) iff the anchors agree and
`base.parts` is a leading run of `p.parts`; returns the remaining
components.  `none` models the `ValueError` raised by `pathlib`. -/
def PurePath.relativeTo (p base : PurePath) : Option (List String) :=
  if base.absolute = p.absolute ∧ base.parts.isPrefixOf p.parts then
    some (p.parts.drop base.parts.length)
  else
    none

/-- Embeds `p.parent`: drop the last component; the root and the empty relative
path are their own parents, as in `pathlib`. -/
def PurePath.parent (p : PurePath) : PurePath :=
  ⟨p.absolute, p.parts.dropLast⟩

/-- Embeds `p.name`: the last component, or `""` when there is none. -/
def PurePath.name (p : PurePath) : String :=
  (p.parts.getLast?).getD ""

/-- Embeds `str(p)` for a `PurePosixPath`. -/
def PurePath.render (p : PurePath) : String :=
  match p.absolute, p.parts with
  | true, [] => "/"
  | true, ps => "/" ++ String.intercalate "/" ps
  | false, [] => "."
  | false, ps => String.intercalate "/" ps

/-- Embeds `Permission`: a virtual path prefix carrying readable/writable bits
(server.py lines 18-44). -/
structure Permission where
  path : PurePath
  readable : Bool
  writable : Bool
deriving DecidableEq, Repr

/-- The default `Permission()`: path `/`, readable and writable. -/
def Permission.default : Permission := ⟨PurePath.root, true, true⟩

/-- Embeds `Permission.is_parent(other)`: true iff `other.relative_to(self.path)`
succeeds (server.py lines 26-35). -/
def Permission.is_parent (perm : Permission) (other : PurePath) : Bool :=
  (other.relativeTo perm.path).isSome

/-- Embeds `User` (server.py lines 47-57). -/
structure User where
  login : Option String
  password : Option String
  base_path : PurePath
  home_path : PurePath
  permissions : List Permission
deriving DecidableEq, Repr

/-- The key used by `min` in `User.get_permissions`:
`len(path.relative_to(p.path).parts)`; `0` stands for the unreachable
unmatched case. -/
def relKey (path : PurePath) (p : Permission) : Nat :=
  match path.relativeTo p.path with
  | some rest => rest.length
  | none => 0

/-- Python's `min(xs, key=key)` over `x :: xs`: the first element attaining
the minimal key (a later element replaces the current best only on a
strictly smaller key). -/
def minBy (key : α → Nat) : α → List α → α
  | x, [] => x
  | x, y :: ys => minBy key (if key y < key x then y else x) ys

/-- Embeds `User.get_permissions` (server.py lines 59-68): filter the permissions
whose path is a parent of `path`, take the one with the fewest remaining
components, defaulting to `Permission()`. -/
def User.get_permissions (u : User) (path : PurePath) : Permission :=
  match u.permissions.filter (fun p => p.is_parent path) with
  | [] => Permission.default
  | x :: xs => minBy (relKey path) x xs

/-- Embeds `os.stat` result as consumed by `build_mlsx_string`; the platform
stringification of each field is kept opaque. -/
structure Stat where
  st_size : String
  st_mtime : String
  st_ctime : String
deriving DecidableEq, Repr

/-- The external path-I/O capability (spec section 6), as a pure oracle:
`exists'`, `is_dir`, `is_file`, `stat` answer queries and `rmdirErr`
gives `some strerror` when `rmdir` raises `OSError`, `none` on success. -/
structure PathIO where
  exists' : PurePath → Bool
  is_dir : PurePath → Bool
  is_file : PurePath → Bool
  stat : PurePath → Stat
  rmdirErr : PurePath → Option String

/-- The per-connection session dictionary (server.py lines 163-172 and the
keys the handlers add).  `Option` fields model key presence; always-present
keys that the claims do not touch (client endpoint, timeout, loop) are
omitted.  The passive listener is recorded by its bound host and port. -/
structure Session where
  server_host : String
  user : Option User := none
  logged : Option Bool := none
  current_directory : Option PurePath := none
  transfer_type : Option String := none
  passive_server : Option (String × Nat) := none
  passive_connection : Option Unit := none
deriving DecidableEq, Repr

/-- The reply part of a handler's return tuple `(ok, code, info[, list])`;
`info` is a string or a list of strings as in the source. -/
inductive Info where
  | str (s : String)
  | list (l : List String)
deriving DecidableEq, Repr

structure Reply where
  ok : Bool
  code : String
  info : Info
  multi : Bool
deriving DecidableEq, Repr

/-- Modelled from the spec: `common.wrap_with_container` (the `common`
module is not under src/); spec 4.3: "Normalize `lines` to a sequence: a
single string becomes `[string]`". -/
def wrap_with_container : Info → List String
  | .str s => [s]
  | .list l => l

/-- Split off the last element: Python's `*body, tail = lines`, which
raises (here: `none`) on an empty sequence. -/
def splitLast : List α → Option (List α × α)
  | [] => none
  | [a] => some ([], a)
  | a :: b :: rest =>
    (splitLast (b :: rest)).map (fun p => (a :: p.1, p.2))

/-- Embeds `BaseServer.write_response` (server.py lines 118-140), as the list of
line payloads written (each is then sent with a trailing CRLF by
`write_line`).  `none` models the `ValueError` of the tuple unpacking when
too few lines are given. -/
def write_response (code : String) (info : Info) (list : Bool) : Option (List String) :=
  let lines := wrap_with_container info
  if list then
    match lines with
    | [] => none
    | head :: rest =>
      (splitLast rest).map (fun p =>
        (code ++ "-" ++ head) ::
          (p.1.map (fun line => " " ++ line) ++ [code ++ " " ++ p.2]))
  else
    (splitLast lines).map (fun p =>
      p.1.map (fun line => code ++ "-" ++ line) ++ [code ++ " " ++ p.2])

/-- What a handler call produces: a reply tuple together with the resulting
session, a bare `None` return (the Python function body falls through
without a `return` statement), or a raised exception (`KeyError` from
`unpack_keywords`, `ValueError` from path operations, ...). -/
inductive HandlerResult where
  | reply (s : Session) (r : Reply)
  | noneReturn (s : Session)
  | exn
deriving DecidableEq, Repr

/-- The session a handler call left behind, when it did not raise. -/
def HandlerResult.session? : HandlerResult → Option Session
  | .reply s _ => some s
  | .noneReturn s => some s
  | .exn => none

/-- Embeds `fields_required` (server.py lines 210-228): check each field in order
and short-circuit with `503 bad sequence of commands (<message>)` on the
first missing one, leaving the session untouched and never calling the
wrapped handler. -/
def fieldsRequired (fields : List ((Session → Bool) × String))
    (f : Session → α → HandlerResult) : Session → α → HandlerResult :=
  fun s arg =>
    match fields.find? (fun fl => ! fl.1 s) with
    | some fl =>
      .reply s ⟨true, "503", .str ("bad sequence of commands (" ++ fl.2 ++ ")"), false⟩
    | none => f s arg

/-- Embeds `user_required` (server.py lines 249-251). -/
def user_required (f : Session → α → HandlerResult) : Session → α → HandlerResult :=
  fieldsRequired [(fun s => s.user.isSome, "no user (use USER firstly)")] f

/-- Embeds `login_required` (server.py lines 252-254). -/
def login_required (f : Session → α → HandlerResult) : Session → α → HandlerResult :=
  fieldsRequired [(fun s => s.logged.isSome, "not logged in")] f

/-- Embeds `passive_required` (server.py lines 255-258). -/
def passive_required (f : Session → α → HandlerResult) : Session → α → HandlerResult :=
  fieldsRequired
    [(fun s => s.passive_server.isSome, "no listen socket created (use PASV firstly)"),
     (fun s => s.passive_connection.isSome, "no passive connection created (connect firstly)")]
    f

namespace Server

/-- Embeds `Server.get_paths` (server.py lines 277-286): make the argument absolute
against `current_directory`, then map under `user.base_path`.  Returns
`(real, virtual)`; `none` models the `KeyError`/`ValueError` a missing key
or a non-absolute virtual path would raise. -/
def get_paths (s : Session) (path : PurePath) : Option (PurePath × PurePath) :=
  match s.user with
  | none => none
  | some u =>
    let step : Option PurePath :=
      if path.absolute then some path
      else
        match s.current_directory with
        | none => none
        | some cd => some (cd.join path)
    match step with
    | none => none
    | some virtualPath =>
      match virtualPath.relativeTo PurePath.root with
      | none => none
      | some rel => some (u.base_path.join ⟨false, rel⟩, virtualPath)

/-- Embeds `Server.greeting` (server.py lines 288-291). -/
def greeting (s : Session) (_rest : String) : HandlerResult :=
  .reply s ⟨true, "220", .str "welcome", false⟩

/-- The user-selection loop of `Server.user` (server.py lines 296-306):
the first anonymous user is kept as a fallback, a user whose login equals
the argument supersedes it and stops the scan. -/
def selectUser (rest : String) : List User → Option User → Option User
  | [], cur => cur
  | u :: us, cur =>
    if u.login.isNone ∧ cur.isNone then selectUser rest us (some u)
    else if u.login = some rest then some u
    else selectUser rest us cur

/-- Embeds `Server.user` (server.py lines 293-327). -/
def user (users : List User) (s : Session) (rest : String) : HandlerResult :=
  match selectUser rest users none with
  | none => .reply s ⟨false, "530", .str "no such username", false⟩
  | some u =>
    if u.login.isNone then
      .reply { s with logged := some true, current_directory := some u.home_path,
                      user := some u }
        ⟨true, "230", .str "anonymous login", false⟩
    else
      .reply { s with user := some u } ⟨true, "331", .str "require password", false⟩

/-- Embeds `Server.pass_` (server.py lines 329-345). -/
def pass_ : Session → String → HandlerResult :=
  user_required fun s rest =>
    match s.user with
    | none => .exn
    | some u =>
      if u.password = some rest then
        .reply { s with logged := some true, current_directory := some u.home_path,
                        user := some u }
          ⟨true, "230", .str "normal login", false⟩
      else
        .reply s ⟨true, "530", .str "wrong password", false⟩

/-- Embeds `Server.quit` (server.py lines 347-350). -/
def quit (s : Session) (_rest : String) : HandlerResult :=
  .reply s ⟨false, "221", .str "bye", false⟩

/-- Embeds `Server.pwd` (server.py lines 352-357). -/
def pwd : Session → String → HandlerResult :=
  login_required fun s _ =>
    match s.current_directory with
    | none => .exn
    | some cd => .reply s ⟨true, "257", .str ("\"" ++ cd.render ++ "\""), false⟩

/-- Embeds `Server.cwd` (server.py lines 359-385). -/
def cwd (io : PathIO) : Session → PurePath → HandlerResult :=
  login_required fun s arg =>
    match s.user, get_paths s arg with
    | some u, some (real_path, virtual_path) =>
      if ! io.exists' real_path then
        .reply s ⟨true, "550", .str "path does not exists", false⟩
      else if ! io.is_dir real_path then
        .reply s ⟨true, "550", .str "path is not a directory", false⟩
      else if (u.get_permissions virtual_path).readable then
        .reply { s with current_directory := some virtual_path }
          ⟨true, "250", .str "", false⟩
      else
        .reply s ⟨true, "550", .str "permission denied", false⟩
    | _, _ => .exn

/-- Embeds `Server.cdup` (server.py lines 387-392): delegate to `cwd` on the
parent of the current directory. -/
def cdup (io : PathIO) : Session → String → HandlerResult :=
  login_required fun s _ =>
    match s.current_directory with
    | none => .exn
    | some cd => cwd io s cd.parent

/-- Embeds `Server.mkd` (server.py lines 394-416). -/
def mkd (io : PathIO) : Session → PurePath → HandlerResult :=
  login_required fun s arg =>
    match s.user, get_paths s arg with
    | some u, some (real_path, virtual_path) =>
      if io.exists' real_path then
        .reply s ⟨true, "550", .str "path already exists", false⟩
      else if (u.get_permissions virtual_path).writable then
        .reply s ⟨true, "257", .str "", false⟩
      else
        .reply s ⟨true, "550", .str "permission denied", false⟩
    | _, _ => .exn

/-- Embeds `Server.rmd` (server.py lines 418-448).  The body computes a
`(code, info)` pair in every branch but contains no `return` statement, so
the coroutine returns `None` on every non-gated path; the branch structure
is kept to mirror the source. -/
def rmd (io : PathIO) : Session → PurePath → HandlerResult :=
  login_required fun s arg =>
    match s.user, get_paths s arg with
    | some u, some (real_path, virtual_path) =>
      if ! io.exists' real_path then
        .noneReturn s
      else if ! io.is_dir real_path then
        .noneReturn s
      else if (u.get_permissions virtual_path).writable then
        match io.rmdirErr real_path with
        | none => .noneReturn s
        | some _ => .noneReturn s
      else
        .noneReturn s
    | _, _ => .exn

/-- Embeds `Server.build_mlsx_string` (server.py lines 450-478): `Type` fact from
the path type (raising `UnknownPathType`, modelled as `none`, when the path
is neither file nor dir), then the stat facts in declaration order, then a
space and the basename. -/
def build_mlsx_string (io : PathIO) (path : PurePath) : Option String :=
  let typeFact : Option String :=
    if io.is_file path then some "file"
    else if io.is_dir path then some "dir"
    else none
  match typeFact with
  | none => none
  | some t =>
    let st := io.stat path
    some ("Type=" ++ t ++ ";" ++ "Size=" ++ st.st_size ++ ";" ++
          "Modify=" ++ st.st_mtime ++ ";" ++ "Create=" ++ st.st_ctime ++ ";" ++
          " " ++ path.name)

/-- Embeds `Server.mlsd` (server.py lines 480-514): the handler itself only checks
permissions and spawns the background writer; the session is mutated by the
writer, not here. -/
def mlsd (io : PathIO) : Session → PurePath → HandlerResult :=
  login_required <| passive_required fun s arg =>
    match s.user, get_paths s arg with
    | some u, some (_real_path, virtual_path) =>
      if (u.get_permissions virtual_path).readable then
        .reply s ⟨true, "150", .str "mlsd transer started", false⟩
      else
        .reply s ⟨true, "550", .str "permission denied", false⟩
    | _, _ => .exn

/-- The session effect of the background `mlsd_writer` task (server.py
lines 486-500): pop `passive_connection`; the data-channel writes are
external I/O and do not touch the session.  `none` models the `KeyError`
of popping an absent key. -/
def mlsd_writer (s : Session) : Option Session :=
  match s.passive_connection with
  | none => none
  | some _ => some { s with passive_connection := none }

/-- Embeds `Server.mlst` (server.py lines 516-532). -/
def mlst (io : PathIO) : Session → PurePath → HandlerResult :=
  login_required fun s arg =>
    match s.user, get_paths s arg with
    | some u, some (real_path, virtual_path) =>
      if (u.get_permissions virtual_path).readable then
        match build_mlsx_string io real_path with
        | none => .exn
        | some str => .reply s ⟨true, "250", .list ["start", str, "end"], true⟩
      else
        .reply s ⟨true, "550", .str "permission denied", false⟩
    | _, _ => .exn

/-- The reserved stubs `rnfr`/`rnto`/`dele`/`stor`/`retr`/`abor`
(server.py lines 534-562, 613-616): a gated body that is just `pass`,
returning `None`. -/
def stub : Session → String → HandlerResult :=
  login_required fun s _ => .noneReturn s

def rnfr : Session → String → HandlerResult := stub
def rnto : Session → String → HandlerResult := stub
def dele : Session → String → HandlerResult := stub
def stor : Session → String → HandlerResult := stub
def retr : Session → String → HandlerResult := stub
def abor : Session → String → HandlerResult := stub

/-- Embeds `Server.type` (server.py lines 564-577). -/
def type (s : Session) (rest : String) : HandlerResult :=
  login_required
    (fun s' (r : String) =>
      if r = "I" then
        .reply { s' with transfer_type := some r } ⟨true, "200", .str "", false⟩
      else
        .reply s' ⟨true, "502", .str ("type '" ++ r ++ "' not implemented"), false⟩)
    s rest

/-- Python `str.split(s, sep)` for a one-character separator, on the
character list: split at every occurrence, keeping empty pieces. -/
def splitOnChar (sep : Char) : List Char → List (List Char)
  | [] => [[]]
  | c :: cs =>
    match splitOnChar sep cs with
    | [] => if c = sep then [[], []] else [[c]]
    | p :: ps => if c = sep then [] :: p :: ps else (c :: p) :: ps

/-- Python `int` on a plain digit string: `none` models the `ValueError`
raised on a non-digit character or the empty string. -/
def parseNat : List Char → Option Nat
  | [] => none
  | cs => cs.foldlM (fun acc c => if c.isDigit then some (acc * 10 + (c.toNat - 48)) else none) 0

/-- The host-octet parse in `Server.pasv`:
`map(int, str.split(host, "."))`; `none` models the `ValueError` of `int`
on a non-numeric piece. -/
def pasvOctets (host : String) : Option (List Nat) :=
  (splitOnChar '.' host.data).mapM parseNat

/-- The advertised PASV number tuple (server.py line 609):
host octets followed by `port >> 8` and `port & 0xff`. -/
def pasvNums (octets : List Nat) (port : Nat) : List Nat :=
  octets ++ [port >>> 8, port &&& 0xff]

/-- The rendered second reply line of PASV (server.py line 610). -/
def pasvLine (nums : List Nat) : String :=
  "(" ++ String.intercalate "," (nums.map toString) ++ ")"

/-- Embeds `Server.pasv` (server.py lines 579-611).  Binding the ephemeral
listener is external; `newPort` is the port the OS would choose, and the
listener is recorded in the session as its bound `(host, port)`. -/
def pasv (newPort : Nat) : Session → String → HandlerResult :=
  login_required fun s _ =>
    let step : Session × String :=
      match s.passive_server with
      | none =>
        ({ s with passive_server := some (s.server_host, newPort) },
         "listen socket created")
      | some _ => (s, "listen socket already exists")
    match step.1.passive_server with
    | none => .exn
    | some (host, port) =>
      match pasvOctets host with
      | none => .exn
      | some octets =>
        .reply step.1
          ⟨true, "227", .list [step.2, pasvLine (pasvNums octets port)], false⟩

end Server

/-- The continue flag of a returned reply tuple is set (vacuous for a
`None` return or an exception, which carry no flag). -/
def replyContinues : HandlerResult → Prop
  | .reply _ r => r.ok = true
  | .noneReturn _ => True
  | .exn => True

/-- Every session a handler call left behind is still authenticated. -/
def keepsLogged : HandlerResult → Prop
  | .reply s _ => s.logged.isSome = true
  | .noneReturn s => s.logged.isSome = true
  | .exn => True

/-- A named sample user (fixture for concrete witnesses). -/
def sampleUser : User :=
  ⟨some "alice", some "pw", ⟨false, []⟩, PurePath.root, [Permission.default]⟩

/-- An anonymous sample user (fixture for concrete witnesses). -/
def anonUser : User :=
  ⟨none, none, ⟨false, []⟩, PurePath.root, [Permission.default]⟩

/-- A freshly accepted session (fixture for concrete witnesses). -/
def freshSession : Session := { server_host := "127.0.0.1" }

/-- An authenticated session (fixture for concrete witnesses). -/
def loggedSession : Session :=
  { server_host := "127.0.0.1", user := some sampleUser, logged := some true,
    current_directory := some PurePath.root }

/-- A path-I/O oracle on which every path exists and is a directory and
`rmdir` succeeds (fixture for concrete witnesses). -/
def okIO : PathIO :=
  ⟨fun _ => true, fun _ => true, fun _ => false, fun _ => ⟨"1", "2", "3"⟩, fun _ => none⟩

/-- C1: with the RMD target existing, a directory, writable, and `rmdir`
succeeding, the handler is required to return `(True, "257", "")`; the
source computes the pair but never returns it, so the call returns `None`.
This theorem evaluates the embedded handler at such an input. -/
theorem rmd_success_returns_none :
    Server.rmd okIO loggedSession ⟨true, ["d"]⟩ = .noneReturn loggedSession ∧
      HandlerResult.noneReturn loggedSession ≠
        .reply loggedSession ⟨true, "257", .str "", false⟩ := by
  refine ⟨by decide, by decide⟩

/-- C8: each precondition gate, on a session missing its required key,
returns `(True, "503", "bad sequence of commands (<message>)")` with the
gate's own message, for every wrapped handler `f` (which is not invoked)
and with the session unchanged. -/
theorem gates_short_circuit {α : Type} (f : Session → α → HandlerResult)
    (s : Session) (arg : α) :
    (s.user = none →
      user_required f s arg = .reply s
        ⟨true, "503", .str "bad sequence of commands (no user (use USER firstly))", false⟩) ∧
    (s.logged = none →
      login_required f s arg = .reply s
        ⟨true, "503", .str "bad sequence of commands (not logged in)", false⟩) ∧
    (s.passive_server = none →
      passive_required f s arg = .reply s
        ⟨true, "503",
         .str "bad sequence of commands (no listen socket created (use PASV firstly))",
         false⟩) ∧
    (s.passive_server.isSome = true → s.passive_connection = none →
      passive_required f s arg = .reply s
        ⟨true, "503",
         .str "bad sequence of commands (no passive connection created (connect firstly))",
         false⟩) := by
  refine ⟨fun h => ?_, fun h => ?_, fun h => ?_, fun h h' => ?_⟩
  · simp [user_required, fieldsRequired, List.find?, h]
  · simp [login_required, fieldsRequired, List.find?, h]
  · simp [passive_required, fieldsRequired, List.find?, h]
  · simp [passive_required, fieldsRequired, List.find?, h, h']

/-- Witness for C8 at concrete sessions missing each key in turn. -/
theorem gates_short_circuit_witness :
    (user_required (fun s (_ : String) => HandlerResult.exn) freshSession "x" =
      .reply freshSession
        ⟨true, "503", .str "bad sequence of commands (no user (use USER firstly))", false⟩) ∧
    (login_required (fun s (_ : String) => HandlerResult.exn) freshSession "x" =
      .reply freshSession
        ⟨true, "503", .str "bad sequence of commands (not logged in)", false⟩) ∧
    (passive_required (fun s (_ : String) => HandlerResult.exn) freshSession "x" =
      .reply freshSession
        ⟨true, "503",
         .str "bad sequence of commands (no listen socket created (use PASV firstly))",
         false⟩) ∧
    (passive_required (fun s (_ : String) => HandlerResult.exn)
        { freshSession with passive_server := some ("127.0.0.1", 4242) } "x" =
      .reply { freshSession with passive_server := some ("127.0.0.1", 4242) }
        ⟨true, "503",
         .str "bad sequence of commands (no passive connection created (connect firstly))",
         false⟩) :=
  ⟨(gates_short_circuit _ freshSession "x").1 rfl,
   (gates_short_circuit _ freshSession "x").2.1 rfl,
   (gates_short_circuit _ freshSession "x").2.2.1 rfl,
   (gates_short_circuit _ { freshSession with passive_server := some ("127.0.0.1", 4242) }
      "x").2.2.2 rfl rfl⟩

/-- The running minimum never exceeds the key of the seed element. -/
theorem minBy_key_le {α : Type} (key : α → Nat) (x : α) (xs : List α) :
    key (minBy key x xs) ≤ key x := by
  induction xs generalizing x with
  | nil => simp [minBy]
  | cons y ys ih =>
    simp only [minBy]
    by_cases h : key y < key x
    · rw [if_pos h]
      exact le_trans (ih y) (le_of_lt h)
    · rw [if_neg h]
      exact ih x

/-- Python's `min` with a key returns the first element attaining the
minimal key: everything before it is strictly larger, everything after it
at least as large. -/
theorem minBy_first_min {α : Type} (key : α → Nat) (x : α) (xs : List α) :
    ∃ l₁ l₂, x :: xs = l₁ ++ minBy key x xs :: l₂ ∧
      (∀ p ∈ l₁, key (minBy key x xs) < key p) ∧
      (∀ p ∈ l₂, key (minBy key x xs) ≤ key p) := by
  induction xs generalizing x with
  | nil => exact ⟨[], [], rfl, by simp, by simp⟩
  | cons y ys ih =>
    simp only [minBy]
    by_cases h : key y < key x
    · rw [if_pos h]
      obtain ⟨l₁, l₂, hdec, h₁, h₂⟩ := ih y
      refine ⟨x :: l₁, l₂, ?_, ?_, h₂⟩
      · rw [List.cons_append, ← hdec]
      · intro p hp
        rcases List.mem_cons.mp hp with hpx | hpl
        · subst hpx
          exact lt_of_le_of_lt (minBy_key_le key y ys) h
        · exact h₁ p hpl
    · rw [if_neg h]
      obtain ⟨l₁, l₂, hdec, h₁, h₂⟩ := ih x
      cases l₁ with
      | nil =>
        simp only [List.nil_append, List.cons.injEq] at hdec
        obtain ⟨hxm, hys⟩ := hdec
        refine ⟨[], y :: l₂, ?_, by simp, ?_⟩
        · simp [← hxm, ← hys]
        · intro p hp
          rcases List.mem_cons.mp hp with hpy | hpl
          · subst hpy
            rw [← hxm]
            exact le_of_not_lt h
          · exact h₂ p hpl
      | cons a l₁' =>
        simp only [List.cons_append, List.cons.injEq] at hdec
        obtain ⟨hax, hys⟩ := hdec
        subst hax
        refine ⟨x :: y :: l₁', l₂, ?_, ?_, h₂⟩
        · rw [List.cons_append, List.cons_append, ← hys]
        · intro p hp
          have hmx : key (minBy key x ys) < key x :=
            h₁ x (List.mem_cons_self x l₁')
          rcases List.mem_cons.mp hp with hpx | hp'
          · subst hpx; exact hmx
          · rcases List.mem_cons.mp hp' with hpy | hpl
            · subst hpy
              exact lt_of_lt_of_le hmx (le_of_not_lt h)
            · exact h₁ p (List.mem_cons_of_mem x hpl)

/-- C4: `get_permissions` returns, among the permissions whose path is an
ancestor of (or equal to) the virtual path, the first one minimizing the
number of remaining components; with no match it returns the default
root permission, readable and writable. -/
theorem get_permissions_most_specific (u : User) (vp : PurePath) :
    (u.permissions.filter (fun p => p.is_parent vp) = [] ∧
      u.get_permissions vp = Permission.default ∧
      Permission.default.path = PurePath.root ∧
      Permission.default.readable = true ∧ Permission.default.writable = true) ∨
    (∃ l₁ l₂, u.permissions.filter (fun p => p.is_parent vp) =
        l₁ ++ u.get_permissions vp :: l₂ ∧
      (∀ p ∈ l₁, relKey vp (u.get_permissions vp) < relKey vp p) ∧
      (∀ p ∈ l₂, relKey vp (u.get_permissions vp) ≤ relKey vp p)) := by
  unfold User.get_permissions
  rcases hf : u.permissions.filter (fun p => p.is_parent vp) with _ | ⟨x, xs⟩
  · left
    simp [hf, Permission.default]
  · right
    simp only [hf]
    exact minBy_first_min (relKey vp) x xs

/-- The user-selection scan returns the first user whose login matches the
argument, else the first anonymous user, else nothing. -/
theorem selectUser_eq (rest : String) (users : List User) :
    ∀ cur, Server.selectUser rest users cur =
      ((users.find? fun u => decide (u.login = some rest)).or
        (cur.or (users.find? fun u => decide (u.login = none)))) := by
  induction users with
  | nil => intro cur; cases cur <;> simp [Server.selectUser, List.find?]
  | cons u us ih =>
    intro cur
    rcases hul : u.login with _ | l
    · cases cur with
      | none =>
        simp only [Server.selectUser, hul, Option.isNone_none, Option.isNone_some]
        rw [if_pos (by simp)]
        rw [ih (some u)]
        simp [List.find?_cons, hul, Option.or]
      | some c =>
        simp only [Server.selectUser, hul, Option.isNone_none, Option.isNone_some]
        rw [if_neg (by simp)]
        rw [if_neg (by simp)]
        rw [ih (some c)]
        simp [List.find?_cons, hul, Option.or]
    · by_cases hlr : l = rest
      · subst hlr
        simp only [Server.selectUser, hul, Option.isNone_some]
        rw [if_neg (by simp)]
        rw [if_pos (by simp)]
        simp [List.find?_cons, hul, Option.or]
      · simp only [Server.selectUser, hul, Option.isNone_some]
        rw [if_neg (by simp)]
        rw [if_neg (by simp [hlr])]
        rw [ih cur]
        simp [List.find?_cons, hul, hlr, Option.or]

/-- C6: the USER scan keeps the first anonymous user as fallback and lets
the first login match supersede it; an anonymous selection logs the session
in at its home path with `230 anonymous login`, a named selection records
the user only and replies `331 require password`. -/
theorem user_selection_spec (users : List User) (s : Session) (rest : String) :
    (Server.selectUser rest users none =
      ((users.find? fun u => decide (u.login = some rest)).or
        (users.find? fun u => decide (u.login = none)))) ∧
    (∀ u, Server.selectUser rest users none = some u → u.login = none →
      Server.user users s rest =
        .reply { s with logged := some true, current_directory := some u.home_path,
                        user := some u }
          ⟨true, "230", .str "anonymous login", false⟩) ∧
    (∀ u l, Server.selectUser rest users none = some u → u.login = some l →
      Server.user users s rest =
        .reply { s with user := some u }
          ⟨true, "331", .str "require password", false⟩) := by
  refine ⟨?_, fun u hsel hlog => ?_, fun u l hsel hlog => ?_⟩
  · rw [selectUser_eq rest users none]
    cases users.find? fun u => decide (u.login = some rest) <;> simp [Option.or]
  · unfold Server.user
    rw [hsel]
    simp [hlog]
  · unfold Server.user
    rw [hsel]
    simp [hlog]

/-- Witness for C6: a named match supersedes an earlier anonymous user and
gets `331 require password` with only `user` set. -/
theorem user_selection_spec_witness :
    Server.user [anonUser, sampleUser] freshSession "alice" =
      .reply { freshSession with user := some sampleUser }
        ⟨true, "331", .str "require password", false⟩ :=
  (user_selection_spec [anonUser, sampleUser] freshSession "alice").2.2
    sampleUser "alice" (by decide) rfl

/-- Splitting with `splitLast` yields exactly the last element. -/
theorem splitLast_append {α : Type} (l : List α) :
    ∀ b t, splitLast l = some (b, t) → l = b ++ [t] := by
  induction l with
  | nil => intro b t h; simp [splitLast] at h
  | cons a rest ih =>
    intro b t h
    cases rest with
    | nil =>
      simp only [splitLast, Option.some_inj, Prod.mk.injEq] at h
      simp [← h.1, ← h.2]
    | cons c rest' =>
      simp only [splitLast, Option.map_eq_some'] at h
      obtain ⟨⟨b', t'⟩, hp, he⟩ := h
      have hrest := ih b' t' hp
      simp only [Prod.mk.injEq] at he
      rw [← he.1, ← he.2, List.cons_append, ← hrest]

/-- C3 (amended): every emitted reply's final line is `code␠tail`; with the
multi flag off every earlier line is `code-line`; with it on the first line
is `code-head` but the interior lines carry a single-space prefix, not the
code. -/
theorem write_response_framing (code : String) (info : Info) (flag : Bool)
    (out : List String) (h : write_response code info flag = some out) :
    (∃ t, out.getLast? = some (code ++ " " ++ t)) ∧
    (flag = false → ∀ l ∈ out.dropLast, ∃ t, l = code ++ "-" ++ t) ∧
    (flag = true → (∃ t, out.head? = some (code ++ "-" ++ t)) ∧
      ∀ l ∈ (out.drop 1).dropLast, ∃ t, l = " " ++ t) := by
  cases flag with
  | false =>
    simp only [write_response, if_false, Bool.false_eq_true, Option.map_eq_some'] at h
    obtain ⟨⟨b, t⟩, _, hout⟩ := h
    refine ⟨⟨t, ?_⟩, fun _ l hl => ?_, fun hc => by cases hc⟩
    · rw [← hout]; exact List.getLast?_concat _
    · rw [← hout, List.dropLast_concat, List.mem_map] at hl
      obtain ⟨x, _, hx⟩ := hl
      exact ⟨x, hx.symm⟩
  | true =>
    simp only [write_response, if_true] at h
    cases hw : wrap_with_container info with
    | nil => rw [hw] at h; cases h
    | cons head rest =>
      rw [hw] at h
      simp only [Option.map_eq_some'] at h
      obtain ⟨⟨b, t⟩, _, hout⟩ := h
      refine ⟨⟨t, ?_⟩, ?_, ?_⟩
      · rw [← hout, ← List.cons_append]; exact List.getLast?_concat _
      · intro hc; simp at hc
      · intro _
        refine ⟨⟨head, ?_⟩, fun l hl => ?_⟩
        · rw [← hout]; rfl
        · rw [← hout] at hl
          simp only [List.drop_succ_cons, List.drop_zero, List.dropLast_concat,
            List.mem_map] at hl
          obtain ⟨x, _, hx⟩ := hl
          exact ⟨x, hx.symm⟩

/-- Witness for C3's amended theorem at a concrete three-line multi reply. -/
theorem write_response_framing_witness :
    (∃ t, (["250-start", " mid", "250 end"] : List String).getLast? =
        some ("250" ++ " " ++ t)) ∧
    ((true : Bool) = false → ∀ l ∈ (["250-start", " mid", "250 end"] : List String).dropLast,
        ∃ t, l = "250" ++ "-" ++ t) ∧
    ((true : Bool) = true →
      (∃ t, (["250-start", " mid", "250 end"] : List String).head? =
          some ("250" ++ "-" ++ t)) ∧
      ∀ l ∈ ((["250-start", " mid", "250 end"] : List String).drop 1).dropLast,
        ∃ t, l = " " ++ t) :=
  write_response_framing "250" (.list ["start", "mid", "end"]) true
    ["250-start", " mid", "250 end"] rfl

/-- Counterexample to C3 as stated: in a three-line multi reply the interior
line is prefixed by a single space, not by `code-`. -/
theorem write_response_multi_interior_no_code :
    write_response "227" (.list ["a", "b", "c"]) true =
      some ["227-a", " b", "227 c"] ∧
    ¬ (∀ l ∈ (["227-a", " b", "227 c"] : List String).dropLast,
        ∃ t, l = "227" ++ "-" ++ t) := by
  refine ⟨rfl, fun hall => ?_⟩
  obtain ⟨t, ht⟩ := hall " b" (by simp)
  have hlen := congrArg String.length ht
  rw [String.length_append, String.length_append] at hlen
  have h1 : (" b").length = 2 := rfl
  have h2 : ("227").length = 3 := rfl
  have h3 : ("-").length = 1 := rfl
  rw [h1, h2, h3] at hlen
  omega

/-- The PASV port split decodes back to the port: `p1·256 + p2 = port`. -/
theorem pasv_port_decode (p : Nat) : (p >>> 8) * 256 + (p &&& 0xff) = p := by
  have h1 : p >>> 8 = p / 256 := by
    have := Nat.shiftRight_eq_div_pow p 8
    simpa using this
  have h2 : p &&& 0xff = p % 256 := by
    have h := Nat.and_pow_two_sub_one_eq_mod p 8
    norm_num at h
    exact h
  rw [h1, h2]
  omega

/-- C7: the PASV reply advertises exactly the bound listener address: the
first four numbers are the dot-separated octets of the server-side host and
the last two decode to the bound port, both when the listener already
exists and when it is freshly created on `newPort`. -/
theorem pasv_advertises_bound_address (s : Session) (rest : String) (n : Nat)
    (hlog : s.logged.isSome = true) :
    (∀ h p os, s.passive_server = some (h, p) → Server.pasvOctets h = some os →
      Server.pasv n s rest = .reply s
        ⟨true, "227",
         .list ["listen socket already exists", Server.pasvLine (Server.pasvNums os p)],
         false⟩ ∧
      Server.pasvNums os p = os ++ [p >>> 8, p &&& 0xff] ∧
      (p >>> 8) * 256 + (p &&& 0xff) = p) ∧
    (∀ os, s.passive_server = none → Server.pasvOctets s.server_host = some os →
      Server.pasv n s rest = .reply { s with passive_server := some (s.server_host, n) }
        ⟨true, "227",
         .list ["listen socket created", Server.pasvLine (Server.pasvNums os n)],
         false⟩ ∧
      Server.pasvNums os n = os ++ [n >>> 8, n &&& 0xff] ∧
      (n >>> 8) * 256 + (n &&& 0xff) = n) := by
  constructor
  · intro h p os hps hoct
    refine ⟨?_, rfl, pasv_port_decode p⟩
    unfold Server.pasv
    simp [login_required, fieldsRequired, List.find?, hlog, hps, hoct]
  · intro os hps hoct
    refine ⟨?_, rfl, pasv_port_decode n⟩
    unfold Server.pasv
    simp [login_required, fieldsRequired, List.find?, hlog, hps, hoct]

/-- Witness for C7 at a concrete logged-in session and listener. -/
theorem pasv_advertises_bound_address_witness :
    Server.pasv 4038 loggedSession "" =
      .reply { loggedSession with passive_server := some ("127.0.0.1", 4038) }
        ⟨true, "227",
         .list ["listen socket created",
                Server.pasvLine (Server.pasvNums [127, 0, 0, 1] 4038)],
         false⟩ ∧
    Server.pasvNums [127, 0, 0, 1] 4038 = [127, 0, 0, 1] ++ [4038 >>> 8, 4038 &&& 0xff] ∧
    (4038 >>> 8) * 256 + (4038 &&& 0xff) = 4038 :=
  (pasv_advertises_bound_address loggedSession "" 4038 rfl).2 [127, 0, 0, 1] rfl (by decide)

/-- A gate preserves the continue flag of the wrapped handler: its own
short-circuit reply always has `ok = true`. -/
theorem replyContinues_fieldsRequired {α : Type}
    (fields : List ((Session → Bool) × String))
    (f : Session → α → HandlerResult) (s : Session) (arg : α)
    (hf : replyContinues (f s arg)) :
    replyContinues (fieldsRequired fields f s arg) := by
  unfold fieldsRequired
  rcases h : List.find? (fun fl => ! fl.1 s) fields with _ | fl
  · simp only [h]
    exact hf
  · simp [h, replyContinues]

theorem rc_cwd (io : PathIO) (s : Session) (arg : PurePath) :
    replyContinues (Server.cwd io s arg) := by
  unfold Server.cwd login_required
  apply replyContinues_fieldsRequired
  dsimp only
  repeat' split
  all_goals simp [replyContinues]

theorem rc_cdup (io : PathIO) (s : Session) (rest : String) :
    replyContinues (Server.cdup io s rest) := by
  unfold Server.cdup login_required
  apply replyContinues_fieldsRequired
  dsimp only
  split
  · simp [replyContinues]
  · exact rc_cwd io _ _

theorem rc_pass (s : Session) (rest : String) :
    replyContinues (Server.pass_ s rest) := by
  unfold Server.pass_ user_required
  apply replyContinues_fieldsRequired
  dsimp only
  repeat' split
  all_goals simp [replyContinues]

theorem rc_pwd (s : Session) (rest : String) :
    replyContinues (Server.pwd s rest) := by
  unfold Server.pwd login_required
  apply replyContinues_fieldsRequired
  dsimp only
  repeat' split
  all_goals simp [replyContinues]

theorem rc_mkd (io : PathIO) (s : Session) (arg : PurePath) :
    replyContinues (Server.mkd io s arg) := by
  unfold Server.mkd login_required
  apply replyContinues_fieldsRequired
  dsimp only
  repeat' split
  all_goals simp [replyContinues]

theorem rc_rmd (io : PathIO) (s : Session) (arg : PurePath) :
    replyContinues (Server.rmd io s arg) := by
  unfold Server.rmd login_required
  apply replyContinues_fieldsRequired
  dsimp only
  repeat' split
  all_goals simp [replyContinues]

theorem rc_mlsd (io : PathIO) (s : Session) (arg : PurePath) :
    replyContinues (Server.mlsd io s arg) := by
  unfold Server.mlsd login_required passive_required
  apply replyContinues_fieldsRequired
  apply replyContinues_fieldsRequired
  dsimp only
  repeat' split
  all_goals simp [replyContinues]

theorem rc_mlst (io : PathIO) (s : Session) (arg : PurePath) :
    replyContinues (Server.mlst io s arg) := by
  unfold Server.mlst login_required
  apply replyContinues_fieldsRequired
  dsimp only
  repeat' split
  all_goals simp [replyContinues]

theorem rc_stub (s : Session) (rest : String) :
    replyContinues (Server.stub s rest) := by
  unfold Server.stub login_required
  apply replyContinues_fieldsRequired
  simp [replyContinues]

theorem rc_type (s : Session) (rest : String) :
    replyContinues (Server.type s rest) := by
  unfold Server.type login_required
  apply replyContinues_fieldsRequired
  dsimp only
  repeat' split
  all_goals simp [replyContinues]

theorem rc_pasv (n : Nat) (s : Session) (rest : String) :
    replyContinues (Server.pasv n s rest) := by
  unfold Server.pasv login_required
  apply replyContinues_fieldsRequired
  dsimp only
  repeat' split
  all_goals simp [replyContinues]

/-- Counterexample to C2 as stated: USER with an argument matching no
configured user and no anonymous user present returns the tuple with the
continue flag cleared, terminating the session loop. -/
theorem user_unknown_ends_session :
    Server.user [sampleUser] freshSession "bob" =
      .reply freshSession ⟨false, "530", .str "no such username", false⟩ := by
  decide

/-- C2 (amended): every handler other than QUIT and USER, whenever it
returns a reply tuple at all, sets the continue flag; QUIT always clears
it; USER sets it exactly when the scan selects a user, and clears it with
`530 no such username` when no user matches and no anonymous user
exists. -/
theorem handlers_reply_continue (io : PathIO) (users : List User) (s : Session)
    (rest : String) (arg : PurePath) (n : Nat) :
    replyContinues (Server.greeting s rest) ∧
    replyContinues (Server.pass_ s rest) ∧
    replyContinues (Server.pwd s rest) ∧
    replyContinues (Server.cwd io s arg) ∧
    replyContinues (Server.cdup io s rest) ∧
    replyContinues (Server.mkd io s arg) ∧
    replyContinues (Server.rmd io s arg) ∧
    replyContinues (Server.mlsd io s arg) ∧
    replyContinues (Server.mlst io s arg) ∧
    replyContinues (Server.rnfr s rest) ∧
    replyContinues (Server.rnto s rest) ∧
    replyContinues (Server.dele s rest) ∧
    replyContinues (Server.stor s rest) ∧
    replyContinues (Server.retr s rest) ∧
    replyContinues (Server.abor s rest) ∧
    replyContinues (Server.type s rest) ∧
    replyContinues (Server.pasv n s rest) ∧
    Server.quit s rest = .reply s ⟨false, "221", .str "bye", false⟩ ∧
    ((Server.selectUser rest users none).isSome = true →
      replyContinues (Server.user users s rest)) ∧
    (Server.selectUser rest users none = none →
      Server.user users s rest =
        .reply s ⟨false, "530", .str "no such username", false⟩) := by
  refine ⟨by simp [Server.greeting, replyContinues], rc_pass s rest, rc_pwd s rest,
    rc_cwd io s arg, rc_cdup io s rest, rc_mkd io s arg, rc_rmd io s arg,
    rc_mlsd io s arg, rc_mlst io s arg, rc_stub s rest, rc_stub s rest,
    rc_stub s rest, rc_stub s rest, rc_stub s rest, rc_stub s rest,
    rc_type s rest, rc_pasv n s rest, rfl, fun hsel => ?_, fun hsel => ?_⟩
  · unfold Server.user
    obtain ⟨u, hu⟩ := Option.isSome_iff_exists.mp hsel
    simp only [hu]
    split <;> simp [replyContinues]
  · unfold Server.user
    rw [hsel]

/-- Witness for C2's amended theorem: a concrete greeting reply continues,
and USER on an empty user list terminates with `530`. -/
theorem handlers_reply_continue_witness :
    replyContinues (Server.greeting freshSession "") ∧
    Server.user [] freshSession "bob" =
      .reply freshSession ⟨false, "530", .str "no such username", false⟩ :=
  ⟨(handlers_reply_continue okIO [] freshSession "" PurePath.root 0).1,
   (handlers_reply_continue okIO [] freshSession "bob" PurePath.root
      0).2.2.2.2.2.2.2.2.2.2.2.2.2.2.2.2.2.2.2 rfl⟩

/-- Evaluating `get_paths` on a well-formed logged-in session: the virtual path is the
argument made absolute against the current directory, the real path the
user's base extended with its components. -/
theorem get_paths_eq (s : Session) (u : User) (cd : PurePath) (arg : PurePath)
    (hu : s.user = some u) (hcd : s.current_directory = some cd)
    (habs : cd.absolute = true) :
    Server.get_paths s arg =
      some (u.base_path.join ⟨false, (if arg.absolute then arg else cd.join arg).parts⟩,
            if arg.absolute then arg else cd.join arg) := by
  unfold Server.get_paths
  rw [hu]
  by_cases ha : arg.absolute = true
  · simp only [ha, if_true]
    have hrel : arg.relativeTo PurePath.root = some arg.parts := by
      simp [PurePath.relativeTo, PurePath.root, ha, List.isPrefixOf]
    simp [hrel]
  · have hb : arg.absolute = false := by
      cases harg : arg.absolute
      · rfl
      · exact absurd harg ha
    simp only [hb, Bool.false_eq_true, if_false, hcd]
    have hjoin : (cd.join arg).absolute = true := by
      simp [PurePath.join, hb, habs]
    have hrel : (cd.join arg).relativeTo PurePath.root = some (cd.join arg).parts := by
      simp [PurePath.relativeTo, PurePath.root, hjoin, List.isPrefixOf]
    simp [hrel]

/-- C5: CWD checks existence, then directory-ness, then readability of the
most specific permission, in that order, replying `550` with the specific
text and leaving `current_directory` unchanged on each failure, and setting
`current_directory` to the virtual path with `250` on success. -/
theorem cwd_check_order (io : PathIO) (s : Session) (arg : PurePath)
    (u : User) (cd vp rp : PurePath)
    (hlog : s.logged.isSome = true) (hu : s.user = some u)
    (hcd : s.current_directory = some cd) (habs : cd.absolute = true)
    (hvp : vp = if arg.absolute then arg else cd.join arg)
    (hrp : rp = u.base_path.join ⟨false, vp.parts⟩) :
    (io.exists' rp = false →
      Server.cwd io s arg = .reply s ⟨true, "550", .str "path does not exists", false⟩) ∧
    (io.exists' rp = true → io.is_dir rp = false →
      Server.cwd io s arg = .reply s ⟨true, "550", .str "path is not a directory", false⟩) ∧
    (io.exists' rp = true → io.is_dir rp = true →
      (u.get_permissions vp).readable = true →
      Server.cwd io s arg =
        .reply { s with current_directory := some vp } ⟨true, "250", .str "", false⟩) ∧
    (io.exists' rp = true → io.is_dir rp = true →
      (u.get_permissions vp).readable = false →
      Server.cwd io s arg = .reply s ⟨true, "550", .str "permission denied", false⟩) := by
  have hgp := get_paths_eq s u cd arg hu hcd habs
  rw [← hvp] at hgp
  rw [← hrp] at hgp
  unfold Server.cwd
  simp only [login_required, fieldsRequired, List.find?, hlog, Bool.not_true]
  refine ⟨fun h1 => ?_, fun h1 h2 => ?_, fun h1 h2 h3 => ?_, fun h1 h2 h3 => ?_⟩ <;>
    simp [hu, hgp, h1] <;> simp [h2] <;> simp [h3]

/-- Witness for C5 at a concrete logged-in session whose target exists, is
a directory and is readable. -/
theorem cwd_check_order_witness :
    Server.cwd okIO loggedSession PurePath.root =
      .reply { loggedSession with current_directory := some PurePath.root }
        ⟨true, "250", .str "", false⟩ :=
  (cwd_check_order okIO loggedSession PurePath.root sampleUser PurePath.root
      PurePath.root (sampleUser.base_path.join ⟨false, PurePath.root.parts⟩)
      rfl rfl rfl rfl rfl rfl).2.2.1 rfl rfl rfl

/-- A gate preserves session authentication: its short-circuit reply keeps
the session unchanged. -/
theorem keepsLogged_fieldsRequired {α : Type}
    (fields : List ((Session → Bool) × String))
    (f : Session → α → HandlerResult) (s : Session) (arg : α)
    (hl : s.logged.isSome = true) (hf : keepsLogged (f s arg)) :
    keepsLogged (fieldsRequired fields f s arg) := by
  unfold fieldsRequired
  rcases h : List.find? (fun fl => ! fl.1 s) fields with _ | fl
  · simp only [h]
    exact hf
  · simp [h, keepsLogged, hl]

theorem kl_user (users : List User) (s : Session) (rest : String)
    (hl : s.logged.isSome = true) : keepsLogged (Server.user users s rest) := by
  unfold Server.user
  repeat' split
  all_goals simp [keepsLogged, hl]

theorem kl_pass (s : Session) (rest : String) (hl : s.logged.isSome = true) :
    keepsLogged (Server.pass_ s rest) := by
  unfold Server.pass_ user_required
  apply keepsLogged_fieldsRequired _ _ _ _ hl
  dsimp only
  repeat' split
  all_goals simp [keepsLogged, hl]

theorem kl_pwd (s : Session) (rest : String) (hl : s.logged.isSome = true) :
    keepsLogged (Server.pwd s rest) := by
  unfold Server.pwd login_required
  apply keepsLogged_fieldsRequired _ _ _ _ hl
  dsimp only
  repeat' split
  all_goals simp [keepsLogged, hl]

theorem kl_cwd (io : PathIO) (s : Session) (arg : PurePath)
    (hl : s.logged.isSome = true) : keepsLogged (Server.cwd io s arg) := by
  unfold Server.cwd login_required
  apply keepsLogged_fieldsRequired _ _ _ _ hl
  dsimp only
  repeat' split
  all_goals simp [keepsLogged, hl]

theorem kl_cdup (io : PathIO) (s : Session) (rest : String)
    (hl : s.logged.isSome = true) : keepsLogged (Server.cdup io s rest) := by
  unfold Server.cdup login_required
  apply keepsLogged_fieldsRequired _ _ _ _ hl
  dsimp only
  split
  · simp [keepsLogged]
  · exact kl_cwd io _ _ hl

theorem kl_mkd (io : PathIO) (s : Session) (arg : PurePath)
    (hl : s.logged.isSome = true) : keepsLogged (Server.mkd io s arg) := by
  unfold Server.mkd login_required
  apply keepsLogged_fieldsRequired _ _ _ _ hl
  dsimp only
  repeat' split
  all_goals simp [keepsLogged, hl]

theorem kl_rmd (io : PathIO) (s : Session) (arg : PurePath)
    (hl : s.logged.isSome = true) : keepsLogged (Server.rmd io s arg) := by
  unfold Server.rmd login_required
  apply keepsLogged_fieldsRequired _ _ _ _ hl
  dsimp only
  repeat' split
  all_goals simp [keepsLogged, hl]

theorem kl_mlsd (io : PathIO) (s : Session) (arg : PurePath)
    (hl : s.logged.isSome = true) : keepsLogged (Server.mlsd io s arg) := by
  unfold Server.mlsd login_required passive_required
  apply keepsLogged_fieldsRequired _ _ _ _ hl
  apply keepsLogged_fieldsRequired _ _ _ _ hl
  dsimp only
  repeat' split
  all_goals simp [keepsLogged, hl]

theorem kl_mlst (io : PathIO) (s : Session) (arg : PurePath)
    (hl : s.logged.isSome = true) : keepsLogged (Server.mlst io s arg) := by
  unfold Server.mlst login_required
  apply keepsLogged_fieldsRequired _ _ _ _ hl
  dsimp only
  repeat' split
  all_goals simp [keepsLogged, hl]

theorem kl_stub (s : Session) (rest : String) (hl : s.logged.isSome = true) :
    keepsLogged (Server.stub s rest) := by
  unfold Server.stub login_required
  apply keepsLogged_fieldsRequired _ _ _ _ hl
  simp [keepsLogged, hl]

theorem kl_type (s : Session) (rest : String) (hl : s.logged.isSome = true) :
    keepsLogged (Server.type s rest) := by
  unfold Server.type login_required
  apply keepsLogged_fieldsRequired _ _ _ _ hl
  dsimp only
  repeat' split
  all_goals simp [keepsLogged, hl]

theorem kl_pasv (n : Nat) (s : Session) (rest : String)
    (hl : s.logged.isSome = true) : keepsLogged (Server.pasv n s rest) := by
  unfold Server.pasv login_required
  apply keepsLogged_fieldsRequired _ _ _ _ hl
  dsimp only
  repeat' split
  all_goals simp [keepsLogged, hl]

/-- C10: once `logged` is present no handler removes it: every session left
behind by any handler — including USER selecting a named user and PASS with
a wrong password — and by the MLSD background writer is still
authenticated. -/
theorem logged_never_removed (io : PathIO) (users : List User) (s : Session)
    (rest : String) (arg : PurePath) (n : Nat) (hl : s.logged.isSome = true) :
    keepsLogged (Server.greeting s rest) ∧
    keepsLogged (Server.user users s rest) ∧
    keepsLogged (Server.pass_ s rest) ∧
    keepsLogged (Server.quit s rest) ∧
    keepsLogged (Server.pwd s rest) ∧
    keepsLogged (Server.cwd io s arg) ∧
    keepsLogged (Server.cdup io s rest) ∧
    keepsLogged (Server.mkd io s arg) ∧
    keepsLogged (Server.rmd io s arg) ∧
    keepsLogged (Server.mlsd io s arg) ∧
    keepsLogged (Server.mlst io s arg) ∧
    keepsLogged (Server.rnfr s rest) ∧
    keepsLogged (Server.rnto s rest) ∧
    keepsLogged (Server.dele s rest) ∧
    keepsLogged (Server.stor s rest) ∧
    keepsLogged (Server.retr s rest) ∧
    keepsLogged (Server.abor s rest) ∧
    keepsLogged (Server.type s rest) ∧
    keepsLogged (Server.pasv n s rest) ∧
    (∀ s', Server.mlsd_writer s = some s' → s'.logged.isSome = true) := by
  refine ⟨by simp [Server.greeting, keepsLogged, hl], kl_user users s rest hl,
    kl_pass s rest hl, by simp [Server.quit, keepsLogged, hl], kl_pwd s rest hl,
    kl_cwd io s arg hl, kl_cdup io s rest hl, kl_mkd io s arg hl,
    kl_rmd io s arg hl, kl_mlsd io s arg hl, kl_mlst io s arg hl,
    kl_stub s rest hl, kl_stub s rest hl, kl_stub s rest hl, kl_stub s rest hl,
    kl_stub s rest hl, kl_stub s rest hl, kl_type s rest hl, kl_pasv n s rest hl,
    fun s' h => ?_⟩
  unfold Server.mlsd_writer at h
  rcases hpc : s.passive_connection with _ | c
  · rw [hpc] at h
    cases h
  · rw [hpc] at h
    cases h
    simp [hl]

/-- Witness for C10: a wrong-password PASS and a named-user USER on an
authenticated session keep it authenticated. -/
theorem logged_never_removed_witness :
    keepsLogged (Server.pass_ loggedSession "wrong") ∧
    keepsLogged (Server.user [sampleUser] loggedSession "alice") :=
  ⟨(logged_never_removed okIO [sampleUser] loggedSession "wrong" PurePath.root 0
      rfl).2.2.1,
   (logged_never_removed okIO [sampleUser] loggedSession "alice" PurePath.root 0
      rfl).2.1⟩

/-- C9: on a logged-in session, CDUP produces exactly the handler result of
CWD applied to the parent of the current directory. -/
theorem cdup_equals_cwd_parent (io : PathIO) (s : Session) (arg : String)
    (cd : PurePath) (hlog : s.logged.isSome = true)
    (hcd : s.current_directory = some cd) :
    Server.cdup io s arg = Server.cwd io s cd.parent := by
  unfold Server.cdup
  simp [login_required, fieldsRequired, List.find?, hlog, hcd]

/-- Witness for C9 at a concrete logged-in session. -/
theorem cdup_equals_cwd_parent_witness :
    Server.cdup okIO loggedSession "" = Server.cwd okIO loggedSession PurePath.root.parent :=
  cdup_equals_cwd_parent okIO loggedSession "" PurePath.root rfl rfl

end Aioftp
